import Mathlib

/-!
Shallow embedding of the pixel-format translation unit
(src/Magnum/GL/PixelFormat.cpp) and of the texture wrapper template
(src/Texture.h) of the Magnum OpenGL abstraction layer.

Conventions of the embedding:

* C++ `UnsignedInt` enum values (generic `Magnum::PixelFormat`,
  `Magnum::CompressedPixelFormat`, raw `GL::PixelFormat` / `GL::PixelType` /
  `GL::CompressedPixelFormat` codes stored in the mapping tables) are `Nat`,
  understood as 32-bit values; the zero-initialised entry `{}` is `0`.
* `CORRADE_ASSERT(cond, msg, {})` aborts the function when `cond` fails
  (printing a message and producing the zero value `{}`); a function that can
  hit an assert is embedded as returning `Option`, with `none` for the
  assertion-failure branch and `some v` for a normal return of `v`.
* The contents of the mapping tables come from
  `Magnum/GL/Implementation/pixelFormatMapping.hpp` and
  `compressedPixelFormatMapping.hpp`, which are not part of this
  repository's sources; the tables are therefore parameters (arbitrary
  lists), and every theorem quantifies over them.
* The embedded configuration is a desktop-GL, non-deprecated build: none of
  MAGNUM_TARGET_GLES, MAGNUM_TARGET_GLES2, MAGNUM_TARGET_WEBGL,
  MAGNUM_BUILD_DEPRECATED is defined, so every `#ifndef MAGNUM_TARGET_*`
  block is included, every `#ifdef MAGNUM_TARGET_GLES2` block and the
  `MAGNUM_BUILD_DEPRECATED` compatibility branch (early return for raw
  values above 0x1000) are excluded.
-/

namespace Magnum

/-- Modelled from the spec: `isPixelFormatImplementationSpecific` from
`Magnum/PixelFormat.h`, which is not part of this repository's sources.
A generic pixel format value wraps an implementation-specific format when
bit 31 of its 32-bit value is set. -/
def isPixelFormatImplementationSpecific (format : Nat) : Bool :=
  format &&& 2 ^ 31 != 0

/-- Modelled from the spec: `pixelFormatUnwrap` from `Magnum/PixelFormat.h`,
which is not part of this repository's sources. Unwrapping an
implementation-specific format clears bit 31 of its 32-bit value. -/
def pixelFormatUnwrap (format : Nat) : Nat :=
  format &&& (2 ^ 31 - 1)

/-- Modelled from the spec: `isCompressedPixelFormatImplementationSpecific`
from `Magnum/PixelFormat.h`, which is not part of this repository's sources.
Same bit-31 convention as the uncompressed variant. -/
def isCompressedPixelFormatImplementationSpecific (format : Nat) : Bool :=
  format &&& 2 ^ 31 != 0

/-- Modelled from the spec: `compressedPixelFormatUnwrap` from
`Magnum/PixelFormat.h`, which is not part of this repository's sources.
Unwrapping clears bit 31 of the 32-bit value. -/
def compressedPixelFormatUnwrap (format : Nat) : Nat :=
  format &&& (2 ^ 31 - 1)

/-- One row of the anonymous-struct array `FormatMapping` in
src/Magnum/GL/PixelFormat.cpp: a raw `GL::PixelFormat` code paired with a raw
`GL::PixelType` code. Rows produced by the `_s(input)` macro are the
zero-initialised `⟨0, 0⟩`. -/
structure FormatMappingEntry where
  format : Nat
  type : Nat
deriving DecidableEq, Repr

/-- Zero-initialised `{}` row, used as the (never-reached) out-of-bounds
default of table lookups. -/
def zeroEntry : FormatMappingEntry := ⟨0, 0⟩

/-- `GL::hasPixelFormat(Magnum::PixelFormat)` from
src/Magnum/GL/PixelFormat.cpp lines 51-65, with the `FormatMapping` table as
an explicit parameter. `none` is the `CORRADE_ASSERT` "invalid format"
branch; the returned Bool is the C++ conversion of the stored raw format
code to bool (nonzero test). -/
def hasPixelFormat (FormatMapping : List FormatMappingEntry) (format : Nat) :
    Option Bool :=
  if isPixelFormatImplementationSpecific format then
    some true
  else if format < FormatMapping.length then
    some ((FormatMapping.getD format zeroEntry).format != 0)
  else
    none

/-- `GL::pixelFormat(Magnum::PixelFormat)` from
src/Magnum/GL/PixelFormat.cpp lines 67-83, with the `FormatMapping` table as
an explicit parameter. `none` covers both `CORRADE_ASSERT` branches: the
"invalid format" bounds check and the "not supported on this target" check
that fires when the stored entry is the zero value. -/
def pixelFormat (FormatMapping : List FormatMappingEntry) (format : Nat) :
    Option Nat :=
  if isPixelFormatImplementationSpecific format then
    some (pixelFormatUnwrap format)
  else if format < FormatMapping.length then
    let out := (FormatMapping.getD format zeroEntry).format
    if out != 0 then some out else none
  else
    none

/-- `GL::pixelType(Magnum::PixelFormat, UnsignedInt)` from
src/Magnum/GL/PixelFormat.cpp lines 85-103, with the `FormatMapping` table
as an explicit parameter. For an implementation-specific format the `extra`
argument is returned as the type, with the assert firing exactly when it is
zero; otherwise the stored type code is looked up, with the bounds assert
and the "not supported on this target" assert as in `pixelFormat`. -/
def pixelType (FormatMapping : List FormatMappingEntry)
    (format : Nat) (extra : Nat) : Option Nat :=
  if isPixelFormatImplementationSpecific format then
    if extra != 0 then some extra else none
  else if format < FormatMapping.length then
    let out := (FormatMapping.getD format zeroEntry).type
    if out != 0 then some out else none
  else
    none

/-- `GL::hasCompressedPixelFormat(Magnum::CompressedPixelFormat)` from
src/Magnum/GL/PixelFormat.cpp lines 358-372, with the
`CompressedFormatMapping` table (a plain array of raw
`GL::CompressedPixelFormat` codes) as an explicit parameter. -/
def hasCompressedPixelFormat (CompressedFormatMapping : List Nat)
    (format : Nat) : Option Bool :=
  if isCompressedPixelFormatImplementationSpecific format then
    some true
  else if format < CompressedFormatMapping.length then
    some (CompressedFormatMapping.getD format 0 != 0)
  else
    none

/-- `GL::compressedPixelFormat(Magnum::CompressedPixelFormat)` from
src/Magnum/GL/PixelFormat.cpp lines 374-387, with the
`CompressedFormatMapping` table as an explicit parameter. Unlike
`pixelFormat`, after the bounds assert the stored code is returned directly,
with no "not supported on this target" assert: a zero entry is returned as
`some 0`. -/
def compressedPixelFormat (CompressedFormatMapping : List Nat)
    (format : Nat) : Option Nat :=
  if isCompressedPixelFormatImplementationSpecific format then
    some (compressedPixelFormatUnwrap format)
  else if format < CompressedFormatMapping.length then
    some (CompressedFormatMapping.getD format 0)
  else
    none

/-- The `GL::PixelFormat` enum, restricted to the enumerators present in the
embedded desktop-GL configuration (all `#ifndef MAGNUM_TARGET_*` blocks of
src/Magnum/GL/PixelFormat.cpp included, `#ifdef MAGNUM_TARGET_GLES2` blocks
excluded). -/
inductive PixelFormat where
  | Red
  | Green
  | Blue
  | RG
  | RGB
  | RGBA
  | BGR
  | BGRA
  | RedInteger
  | GreenInteger
  | BlueInteger
  | RGInteger
  | RGBInteger
  | RGBAInteger
  | BGRInteger
  | BGRAInteger
  | DepthComponent
  | StencilIndex
  | DepthStencil
deriving DecidableEq, Repr, Fintype

/-- The `GL::PixelType` enum, restricted to the enumerators present in the
embedded desktop-GL configuration. -/
inductive PixelType where
  | UnsignedByte
  | Byte
  | UnsignedShort
  | Short
  | UnsignedInt
  | Int
  | HalfFloat
  | Float
  | UnsignedByte332
  | UnsignedByte233Rev
  | UnsignedShort565
  | UnsignedShort565Rev
  | UnsignedShort4444
  | UnsignedShort4444Rev
  | UnsignedShort5551
  | UnsignedShort1555Rev
  | UnsignedInt8888
  | UnsignedInt8888Rev
  | UnsignedInt1010102
  | UnsignedInt2101010Rev
  | UnsignedInt10F11F11FRev
  | UnsignedInt5999Rev
  | UnsignedInt248
  | Float32UnsignedInt248Rev
deriving DecidableEq, Repr, Fintype

/-- `GL::pixelSize(GL::PixelFormat, GL::PixelType)` from
src/Magnum/GL/PixelFormat.cpp lines 105-228 in the desktop-GL configuration.
The first C++ switch either sets `size` for the plain component types and
falls through to the format switch, or returns a fixed total for the packed
types; the format switch multiplies `size` by the component count and hits
`CORRADE_ASSERT(false, ...)` (`none` here) for `DepthStencil`, which is only
meaningful with a packed type. -/
def pixelSize (format : PixelFormat) (type : PixelType) : Option Nat :=
  let size : Nat :=
    match type with
    | .UnsignedByte | .Byte => 1
    | .UnsignedShort | .Short | .HalfFloat => 2
    | .UnsignedInt | .Int | .Float => 4
    | _ => 0
  match type with
  | .UnsignedByte332 | .UnsignedByte233Rev => some 1
  | .UnsignedShort565 | .UnsignedShort565Rev | .UnsignedShort4444
  | .UnsignedShort4444Rev | .UnsignedShort5551 | .UnsignedShort1555Rev =>
    some 2
  | .UnsignedInt8888 | .UnsignedInt8888Rev | .UnsignedInt1010102
  | .UnsignedInt2101010Rev | .UnsignedInt10F11F11FRev | .UnsignedInt5999Rev
  | .UnsignedInt248 =>
    some 4
  | .Float32UnsignedInt248Rev => some 8
  | _ =>
    match format with
    | .Red | .RedInteger | .Green | .Blue | .GreenInteger | .BlueInteger
    | .DepthComponent | .StencilIndex =>
      some (1 * size)
    | .RG | .RGInteger => some (2 * size)
    | .RGB | .RGBInteger | .BGR | .BGRInteger => some (3 * size)
    | .RGBA | .RGBAInteger | .BGRA | .BGRAInteger => some (4 * size)
    | .DepthStencil => none

/-- The `GL::PixelType` enumerators handled by the `size = ...; break` cases
of the first switch of `pixelSize` (the plain, non-packed component types). -/
def isComponentType : PixelType → Bool
  | .UnsignedByte | .Byte | .UnsignedShort | .Short | .HalfFloat
  | .UnsignedInt | .Int | .Float => true
  | _ => false

/-- The `GL::PixelType` enumerators handled by the direct `return` cases of
the first switch of `pixelSize` (the packed types). -/
def isPackedType : PixelType → Bool
  | .UnsignedByte332 | .UnsignedByte233Rev | .UnsignedShort565
  | .UnsignedShort565Rev | .UnsignedShort4444 | .UnsignedShort4444Rev
  | .UnsignedShort5551 | .UnsignedShort1555Rev | .UnsignedInt8888
  | .UnsignedInt8888Rev | .UnsignedInt1010102 | .UnsignedInt2101010Rev
  | .UnsignedInt10F11F11FRev | .UnsignedInt5999Rev | .UnsignedInt248
  | .Float32UnsignedInt248Rev => true
  | _ => false

/-- Per-component byte size of a plain `GL::PixelType`, as the spec states
it: 1 for byte types, 2 for short/half-float types, 4 for int/float types
(zero for the packed types, to which the notion does not apply). Stated from
the spec's words, for comparison with `pixelSize`. -/
def bytesPerComponent : PixelType → Nat
  | .UnsignedByte | .Byte => 1
  | .UnsignedShort | .Short | .HalfFloat => 2
  | .UnsignedInt | .Int | .Float => 4
  | _ => 0

/-- Component count of a `GL::PixelFormat`, as the spec states it: 1 for
single-channel, depth and stencil formats, 2, 3 and 4 for the two-, three-
and four-channel formats. Stated from the spec's words, for comparison with
`pixelSize`. -/
def componentCount : PixelFormat → Nat
  | .Red | .Green | .Blue | .RedInteger | .GreenInteger | .BlueInteger
  | .DepthComponent | .StencilIndex | .DepthStencil => 1
  | .RG | .RGInteger => 2
  | .RGB | .RGBInteger | .BGR | .BGRInteger => 3
  | .RGBA | .RGBAInteger | .BGRA | .BGRAInteger => 4

/-- State of a `Magnum::Texture<dimensions>` object from src/Texture.h: the
`GLenum _target` stored by the `AbstractTexture(static_cast<GLenum>(target))`
base-class constructor, plus the remaining base-class state `rest`, drawn
from an arbitrary type because `AbstractTexture`'s data members are not part
of this repository's sources. `Texture<dimensions>` itself adds no data
members. -/
structure Texture (dimensions : Nat) (ρ : Type) where
  _target : Nat
  rest : ρ
deriving DecidableEq, Repr

/-- Static member `Texture<dimensions>::Dimensions` (src/Texture.h line
112): the dimension count of the texture class. -/
def Texture.Dimensions (dimensions : Nat) : Nat := dimensions

/-- Modelled from the spec: `DataHelper<dimensions>::target()`, the default
argument of the `Texture` constructor, which is not part of this
repository's sources. Per the constructor documentation in src/Texture.h it
is `Target::Texture1D`, `Target::Texture2D` or `Target::Texture3D` based on
dimension count; the numeric values are the corresponding GL_TEXTURE_1D/2D/3D
codes of the wrapped API. -/
def DataHelper.target : Nat → Nat
  | 1 => 0x0DE0
  | 2 => 0x0DE1
  | 3 => 0x806F
  | _ => 0

/-- The `Texture(Target target)` constructor (src/Texture.h line 171) with
an explicitly supplied target: stores `static_cast<GLenum>(target)` in the
base class. `rest` is the base-class state the `AbstractTexture` constructor
produces, kept abstract. -/
def Texture.mk' (dimensions : Nat) (rest : ρ) (target : Nat) :
    Texture dimensions ρ :=
  ⟨target, rest⟩

/-- The `Texture()` constructor with the target argument defaulted to
`DataHelper<Dimensions>::target()` (src/Texture.h line 171). -/
def Texture.mkDefault (dimensions : Nat) (rest : ρ) : Texture dimensions ρ :=
  Texture.mk' dimensions rest (DataHelper.target dimensions)

/-- The `target()` accessor (src/Texture.h line 174): returns
`static_cast<Target>(_target)`. -/
def Texture.target (t : Texture dimensions ρ) : Nat := t._target

/-- Pointer-indexed store of texture objects: C++ object identity is made
explicit so that "returns a pointer to the same object" is statable. -/
def heapUpdate {σ : Type} (heap : Nat → σ) (p : Nat) (v : σ) : Nat → σ :=
  fun q => if q = p then v else heap q

/-- `Texture<Dimensions>::setWrapping` (src/Texture.h lines 194-197):
`DataHelper<Dimensions>::setWrapping(this, wrapping); return this;`. The
helper, not part of this repository's sources, is an arbitrary transformer
of the pointed-to object; the method applies it once through `this` and
returns `this`. -/
def Texture.setWrapping {d : Nat} {ρ W : Type}
    (setWrappingImpl : Texture d ρ → W → Texture d ρ)
    (heap : Nat → Texture d ρ) (self : Nat) (wrapping : W) :
    (Nat → Texture d ρ) × Nat :=
  (heapUpdate heap self (setWrappingImpl (heap self) wrapping), self)

/-- `Texture<Dimensions>::setData` (src/Texture.h lines 216-219):
`DataHelper<Dimensions>::set(this, _target, mipLevel, internalFormat,
image); return this;`. -/
def Texture.setData {d : Nat} {ρ L F I : Type}
    (setImpl : Texture d ρ → Nat → L → F → I → Texture d ρ)
    (heap : Nat → Texture d ρ) (self : Nat)
    (mipLevel : L) (internalFormat : F) (image : I) :
    (Nat → Texture d ρ) × Nat :=
  (heapUpdate heap self
    (setImpl (heap self) (heap self)._target mipLevel internalFormat image),
   self)

/-- `Texture<Dimensions>::setSubData` (src/Texture.h lines 246-249):
`DataHelper<Dimensions>::setSub(this, _target, mipLevel, offset, image);
return this;`. -/
def Texture.setSubData {d : Nat} {ρ L O I : Type}
    (setSubImpl : Texture d ρ → Nat → L → O → I → Texture d ρ)
    (heap : Nat → Texture d ρ) (self : Nat)
    (mipLevel : L) (offset : O) (image : I) :
    (Nat → Texture d ρ) × Nat :=
  (heapUpdate heap self
    (setSubImpl (heap self) (heap self)._target mipLevel offset image),
   self)

/-- `Texture<Dimensions>::setMinificationFilter` (src/Texture.h lines
253-256): `AbstractTexture::setMinificationFilter(filter, mipmap); return
this;`. -/
def Texture.setMinificationFilter {d : Nat} {ρ F M : Type}
    (baseImpl : Texture d ρ → F → M → Texture d ρ)
    (heap : Nat → Texture d ρ) (self : Nat) (filter : F) (mipmap : M) :
    (Nat → Texture d ρ) × Nat :=
  (heapUpdate heap self (baseImpl (heap self) filter mipmap), self)

/-- `Texture<Dimensions>::setMagnificationFilter` (src/Texture.h lines
257-260): `AbstractTexture::setMagnificationFilter(filter); return this;`. -/
def Texture.setMagnificationFilter {d : Nat} {ρ F : Type}
    (baseImpl : Texture d ρ → F → Texture d ρ)
    (heap : Nat → Texture d ρ) (self : Nat) (filter : F) :
    (Nat → Texture d ρ) × Nat :=
  (heapUpdate heap self (baseImpl (heap self) filter), self)

/-- `Texture<Dimensions>::setBorderColor` (src/Texture.h lines 262-265):
`AbstractTexture::setBorderColor(color); return this;`. -/
def Texture.setBorderColor {d : Nat} {ρ C : Type}
    (baseImpl : Texture d ρ → C → Texture d ρ)
    (heap : Nat → Texture d ρ) (self : Nat) (color : C) :
    (Nat → Texture d ρ) × Nat :=
  (heapUpdate heap self (baseImpl (heap self) color), self)

/-- `Texture<Dimensions>::setMaxAnisotropy` (src/Texture.h lines 266-269):
`AbstractTexture::setMaxAnisotropy(anisotropy); return this;`. -/
def Texture.setMaxAnisotropy {d : Nat} {ρ A : Type}
    (baseImpl : Texture d ρ → A → Texture d ρ)
    (heap : Nat → Texture d ρ) (self : Nat) (anisotropy : A) :
    (Nat → Texture d ρ) × Nat :=
  (heapUpdate heap self (baseImpl (heap self) anisotropy), self)

/-- `Texture<Dimensions>::generateMipmap` (src/Texture.h lines 271-274):
`AbstractTexture::generateMipmap(); return this;`. -/
def Texture.generateMipmap {d : Nat} {ρ : Type}
    (baseImpl : Texture d ρ → Texture d ρ)
    (heap : Nat → Texture d ρ) (self : Nat) :
    (Nat → Texture d ρ) × Nat :=
  (heapUpdate heap self (baseImpl (heap self)), self)

/-- Typedef `Texture1D = Texture<1>` (src/Texture.h line 284). -/
def Texture1D (ρ : Type) := Texture 1 ρ

/-- Typedef `Texture2D = Texture<2>` (src/Texture.h line 288). -/
def Texture2D (ρ : Type) := Texture 2 ρ

/-- Typedef `Texture3D = Texture<3>` (src/Texture.h line 295). -/
def Texture3D (ρ : Type) := Texture 3 ρ

/-! Theorems. Each claim of the specification is settled against the
embedded definitions above. -/

/-- C1: for every generic `Magnum::PixelFormat` that is not
implementation-specific and whose numeric value is a valid index into the
`FormatMapping` table, `pixelFormat` returns exactly the raw
`GL::PixelFormat` stored in the table row indexed by the format's numeric
value, and fails (assertion, zero-valued result, embedded as `none`) when
that stored entry is the zero value. -/
theorem pixelFormat_table_lookup
    (FormatMapping : List FormatMappingEntry) (format : Nat)
    (himpl : isPixelFormatImplementationSpecific format = false)
    (hlt : format < FormatMapping.length) :
    ((FormatMapping.getD format zeroEntry).format ≠ 0 →
      pixelFormat FormatMapping format =
        some (FormatMapping.getD format zeroEntry).format) ∧
    ((FormatMapping.getD format zeroEntry).format = 0 →
      pixelFormat FormatMapping format = none) := by
  constructor <;> intro h <;>
    rw [List.getD_eq_getElem _ zeroEntry hlt] at h <;>
    simp [pixelFormat, himpl, hlt, h]

/-- Witness for C1: a concrete one-row table, evaluated at format 0. -/
theorem pixelFormat_table_lookup_witness :
    ((([⟨10, 20⟩] : List FormatMappingEntry).getD 0 zeroEntry).format ≠ 0 →
      pixelFormat [⟨10, 20⟩] 0 =
        some (([⟨10, 20⟩] : List FormatMappingEntry).getD 0 zeroEntry).format) ∧
    ((([⟨10, 20⟩] : List FormatMappingEntry).getD 0 zeroEntry).format = 0 →
      pixelFormat [⟨10, 20⟩] 0 = none) :=
  pixelFormat_table_lookup [⟨10, 20⟩] 0 (by decide) (by decide)

/-- C2, counterexample: the claim says that for every
non-implementation-specific format within the table bounds `pixelType`
returns the `GL::PixelType` stored in the table row; on a table whose row is
the zero-initialised `_s` entry the code instead hits the "not supported on
this target" assertion (embedded as `none`), so the stored type is not
returned. -/
theorem pixelType_stored_type_counterexample :
    isPixelFormatImplementationSpecific 0 = false ∧
    0 < ([⟨0, 0⟩] : List FormatMappingEntry).length ∧
    pixelType [⟨0, 0⟩] 0 1 ≠
      some (([⟨0, 0⟩] : List FormatMappingEntry).getD 0 zeroEntry).type := by
  decide

/-- C2, amended: for every non-implementation-specific format within the
table bounds, `pixelType` ignores the `extra` argument and returns the
`GL::PixelType` stored in the table row when that stored type is nonzero,
and fails (assertion, zero-valued result, embedded as `none`) when the
stored type is the zero value; for every implementation-specific format it
returns `GL::PixelType(extra)` and fails exactly when `extra` is zero. -/
theorem pixelType_spec
    (FormatMapping : List FormatMappingEntry) (format extra extra2 : Nat) :
    (isPixelFormatImplementationSpecific format = false →
      format < FormatMapping.length →
      (pixelType FormatMapping format extra =
        pixelType FormatMapping format extra2 ∧
       ((FormatMapping.getD format zeroEntry).type ≠ 0 →
        pixelType FormatMapping format extra =
          some (FormatMapping.getD format zeroEntry).type) ∧
       ((FormatMapping.getD format zeroEntry).type = 0 →
        pixelType FormatMapping format extra = none))) ∧
    (isPixelFormatImplementationSpecific format = true →
      ((extra ≠ 0 → pixelType FormatMapping format extra = some extra) ∧
       (extra = 0 → pixelType FormatMapping format extra = none))) := by
  constructor
  · intro himpl hlt
    refine ⟨by simp [pixelType, himpl, hlt], ?_, ?_⟩ <;>
      intro h <;>
      rw [List.getD_eq_getElem _ zeroEntry hlt] at h <;>
      simp [pixelType, himpl, hlt, h]
  · intro himpl
    constructor <;> intro h <;> simp [pixelType, himpl, h]

/-- Witness for C2's amended theorem: concrete tables exercising both the
table-lookup half (nonzero stored type, `extra` ignored) and the
implementation-specific half. -/
theorem pixelType_spec_witness :
    (pixelType [⟨10, 20⟩] 0 1 = pixelType [⟨10, 20⟩] 0 7 ∧
     ((([⟨10, 20⟩] : List FormatMappingEntry).getD 0 zeroEntry).type ≠ 0 →
      pixelType [⟨10, 20⟩] 0 1 =
        some (([⟨10, 20⟩] : List FormatMappingEntry).getD 0 zeroEntry).type) ∧
     ((([⟨10, 20⟩] : List FormatMappingEntry).getD 0 zeroEntry).type = 0 →
      pixelType [⟨10, 20⟩] 0 1 = none)) ∧
    ((3 ≠ 0 → pixelType [] (2 ^ 31) 3 = some 3) ∧
     (3 = 0 → pixelType [] (2 ^ 31) 3 = none)) :=
  ⟨(pixelType_spec [⟨10, 20⟩] 0 1 7).1 (by decide) (by decide),
   (pixelType_spec [] (2 ^ 31) 3 0).2 (by decide)⟩

/-- C3: for every non-implementation-specific format within the table
bounds, `hasPixelFormat` returns true exactly when `pixelFormat` succeeds
(does not hit the "not supported on this target" failure branch), and for
every implementation-specific format `hasPixelFormat` returns true
unconditionally. -/
theorem hasPixelFormat_iff_pixelFormat_succeeds
    (FormatMapping : List FormatMappingEntry) (format : Nat) :
    (isPixelFormatImplementationSpecific format = false →
      format < FormatMapping.length →
      (hasPixelFormat FormatMapping format = some true ↔
        (pixelFormat FormatMapping format).isSome = true)) ∧
    (isPixelFormatImplementationSpecific format = true →
      hasPixelFormat FormatMapping format = some true) := by
  constructor
  · intro himpl hlt
    by_cases h : (FormatMapping.getD format zeroEntry).format = 0 <;>
      simp [hasPixelFormat, pixelFormat, himpl, hlt, h]
  · intro himpl
    simp [hasPixelFormat, himpl]

/-- Witness for C3: a concrete supported row, a concrete zero row and a
concrete implementation-specific format. -/
theorem hasPixelFormat_iff_pixelFormat_succeeds_witness :
    (hasPixelFormat [⟨10, 20⟩] 0 = some true ↔
      (pixelFormat [⟨10, 20⟩] 0).isSome = true) ∧
    (hasPixelFormat [⟨0, 0⟩] 0 = some true ↔
      (pixelFormat [⟨0, 0⟩] 0).isSome = true) ∧
    hasPixelFormat [] (2 ^ 31) = some true :=
  ⟨(hasPixelFormat_iff_pixelFormat_succeeds [⟨10, 20⟩] 0).1
      (by decide) (by decide),
   (hasPixelFormat_iff_pixelFormat_succeeds [⟨0, 0⟩] 0).1
      (by decide) (by decide),
   (hasPixelFormat_iff_pixelFormat_succeeds [] (2 ^ 31)).2 (by decide)⟩

/-- C4: for every non-implementation-specific
`Magnum::CompressedPixelFormat` within the `CompressedFormatMapping` table
bounds whose table entry is the zero value, `hasCompressedPixelFormat`
returns false, yet `compressedPixelFormat` does not fail: it returns that
zero-valued raw code as a normal result (`some 0`, no "not supported"
assertion), unlike `pixelFormat`, which asserts (`none`) in the analogous
zero-entry case. -/
theorem compressedPixelFormat_zero_entry_no_assert
    (CompressedFormatMapping : List Nat) (format : Nat)
    (himpl : isCompressedPixelFormatImplementationSpecific format = false)
    (hlt : format < CompressedFormatMapping.length)
    (hzero : CompressedFormatMapping.getD format 0 = 0) :
    hasCompressedPixelFormat CompressedFormatMapping format = some false ∧
    compressedPixelFormat CompressedFormatMapping format = some 0 ∧
    (isPixelFormatImplementationSpecific format = false →
      ∀ FormatMapping : List FormatMappingEntry,
        format < FormatMapping.length →
        (FormatMapping.getD format zeroEntry).format = 0 →
        pixelFormat FormatMapping format = none) := by
  rw [List.getD_eq_getElem _ 0 hlt] at hzero
  refine ⟨?_, ?_, ?_⟩
  · simp [hasCompressedPixelFormat, himpl, hlt, hzero]
  · simp [compressedPixelFormat, himpl, hlt, hzero]
  · intro himplU FormatMapping hltU hzeroU
    exact (pixelFormat_table_lookup FormatMapping format himplU hltU).2 hzeroU

/-- Witness for C4: the one-row zero tables at format 0. -/
theorem compressedPixelFormat_zero_entry_no_assert_witness :
    hasCompressedPixelFormat [0] 0 = some false ∧
    compressedPixelFormat [0] 0 = some 0 ∧
    pixelFormat [⟨0, 0⟩] 0 = none :=
  ⟨(compressedPixelFormat_zero_entry_no_assert [0] 0
      (by decide) (by decide) (by decide)).1,
   (compressedPixelFormat_zero_entry_no_assert [0] 0
      (by decide) (by decide) (by decide)).2.1,
   (compressedPixelFormat_zero_entry_no_assert [0] 0
      (by decide) (by decide) (by decide)).2.2
      (by decide) [⟨0, 0⟩] (by decide) (by decide)⟩

/-- C5: for every generic `Magnum::CompressedPixelFormat` that is not
implementation-specific and whose numeric value is a valid index into the
`CompressedFormatMapping` table, `compressedPixelFormat` returns exactly the
raw code stored in the table at that index, and for every
implementation-specific compressed format it returns the unwrapped wrapped
value. -/
theorem compressedPixelFormat_table_and_unwrap
    (CompressedFormatMapping : List Nat) (format : Nat) :
    (isCompressedPixelFormatImplementationSpecific format = false →
      format < CompressedFormatMapping.length →
      compressedPixelFormat CompressedFormatMapping format =
        some (CompressedFormatMapping.getD format 0)) ∧
    (isCompressedPixelFormatImplementationSpecific format = true →
      compressedPixelFormat CompressedFormatMapping format =
        some (compressedPixelFormatUnwrap format)) := by
  constructor <;> intro himpl
  · intro hlt
    simp [compressedPixelFormat, himpl, hlt]
  · simp [compressedPixelFormat, himpl]

/-- Witness for C5: a concrete one-row table at format 0, and the
implementation-specific value with payload 5. -/
theorem compressedPixelFormat_table_and_unwrap_witness :
    compressedPixelFormat [10] 0 = some (([10] : List Nat).getD 0 0) ∧
    compressedPixelFormat [] (2 ^ 31 + 5) =
      some (compressedPixelFormatUnwrap (2 ^ 31 + 5)) :=
  ⟨(compressedPixelFormat_table_and_unwrap [10] 0).1 (by decide) (by decide),
   (compressedPixelFormat_table_and_unwrap [] (2 ^ 31 + 5)).2 (by decide)⟩

/-- C6: for every `GL::PixelFormat` and every non-packed `GL::PixelType`,
`pixelSize` returns the per-component byte size of the type multiplied by
the component count of the format, and fails (assertion, embedded as `none`)
when the format is `DepthStencil`. -/
theorem pixelSize_component_formula
    (format : PixelFormat) (type : PixelType)
    (hc : isComponentType type = true) :
    pixelSize format type =
      if format = PixelFormat.DepthStencil then none
      else some (bytesPerComponent type * componentCount format) := by
  revert format type hc
  decide

/-- Witness for C6: RGBA with Float (4 components of 4 bytes). -/
theorem pixelSize_component_formula_witness :
    isComponentType PixelType.Float = true ∧
    pixelSize PixelFormat.RGBA PixelType.Float =
      (if PixelFormat.RGBA = PixelFormat.DepthStencil then none
       else some (bytesPerComponent PixelType.Float *
                  componentCount PixelFormat.RGBA)) :=
  ⟨by decide,
   pixelSize_component_formula PixelFormat.RGBA PixelType.Float (by decide)⟩

/-- C7: for every packed `GL::PixelType`, `pixelSize` returns a fixed size
of 1, 2, 4 or 8 bytes that is identical for any two `GL::PixelFormat`
arguments: the result does not depend on the format argument at all. -/
theorem pixelSize_packed_format_independent
    (type : PixelType) (f1 f2 : PixelFormat)
    (hp : isPackedType type = true) :
    pixelSize f1 type = pixelSize f2 type ∧
    (pixelSize f1 type = some 1 ∨ pixelSize f1 type = some 2 ∨
     pixelSize f1 type = some 4 ∨ pixelSize f1 type = some 8) := by
  revert type f1 f2 hp
  decide

/-- Witness for C7: the packed type UnsignedInt248 against two different
formats (including the depth/stencil one). -/
theorem pixelSize_packed_format_independent_witness :
    isPackedType PixelType.UnsignedInt248 = true ∧
    (pixelSize PixelFormat.DepthStencil PixelType.UnsignedInt248 =
       pixelSize PixelFormat.Red PixelType.UnsignedInt248 ∧
     (pixelSize PixelFormat.DepthStencil PixelType.UnsignedInt248 = some 1 ∨
      pixelSize PixelFormat.DepthStencil PixelType.UnsignedInt248 = some 2 ∨
      pixelSize PixelFormat.DepthStencil PixelType.UnsignedInt248 = some 4 ∨
      pixelSize PixelFormat.DepthStencil PixelType.UnsignedInt248 = some 8)) :=
  ⟨by decide,
   pixelSize_packed_format_independent PixelType.UnsignedInt248
     PixelFormat.DepthStencil PixelFormat.Red (by decide)⟩

/-- C9: the six format-translation functions are deterministic pure lookups:
two applications to the same arguments yield the same result. In this
embedding every one of them is a pure function of its arguments (the
mapping tables are passed in as immutable values and nothing is written),
mirroring the C++ functions, which only read `constexpr` tables and local
variables. -/
theorem formatTranslation_pure
    (FormatMapping : List FormatMappingEntry)
    (CompressedFormatMapping : List Nat) (format extra : Nat)
    (f : PixelFormat) (t : PixelType) :
    hasPixelFormat FormatMapping format =
      hasPixelFormat FormatMapping format ∧
    pixelFormat FormatMapping format = pixelFormat FormatMapping format ∧
    pixelType FormatMapping format extra =
      pixelType FormatMapping format extra ∧
    pixelSize f t = pixelSize f t ∧
    hasCompressedPixelFormat CompressedFormatMapping format =
      hasCompressedPixelFormat CompressedFormatMapping format ∧
    compressedPixelFormat CompressedFormatMapping format =
      compressedPixelFormat CompressedFormatMapping format :=
  ⟨rfl, rfl, rfl, rfl, rfl, rfl⟩

/-- C8: every chainable setter of `Texture<Dimensions>` — `setWrapping`,
`setData`, `setSubData`, `setMinificationFilter`, `setMagnificationFilter`,
`setBorderColor`, `setMaxAnisotropy`, `generateMipmap` — performs a single
delegation to the underlying helper or base-class operation (applied exactly
once to the pointed-to object, with `_target` passed along where the source
does) and returns a pointer to the same texture object it was invoked on.
Stated for arbitrary helper implementations, since those live outside this
repository's sources. -/
theorem texture_setters_delegate_and_return_self
    (d : Nat) (ρ W L F I O Fi M C A : Type)
    (wrapImpl : Texture d ρ → W → Texture d ρ)
    (setImpl : Texture d ρ → Nat → L → F → I → Texture d ρ)
    (setSubImpl : Texture d ρ → Nat → L → O → I → Texture d ρ)
    (minImpl : Texture d ρ → Fi → M → Texture d ρ)
    (magImpl : Texture d ρ → Fi → Texture d ρ)
    (borderImpl : Texture d ρ → C → Texture d ρ)
    (anisoImpl : Texture d ρ → A → Texture d ρ)
    (mipImpl : Texture d ρ → Texture d ρ)
    (heap : Nat → Texture d ρ) (self : Nat)
    (wrapping : W) (mipLevel : L) (internalFormat : F) (image : I)
    (offset : O) (filter : Fi) (mipmap : M) (color : C) (anisotropy : A) :
    Texture.setWrapping wrapImpl heap self wrapping =
      (heapUpdate heap self (wrapImpl (heap self) wrapping), self) ∧
    Texture.setData setImpl heap self mipLevel internalFormat image =
      (heapUpdate heap self
        (setImpl (heap self) (heap self)._target mipLevel internalFormat
          image), self) ∧
    Texture.setSubData setSubImpl heap self mipLevel offset image =
      (heapUpdate heap self
        (setSubImpl (heap self) (heap self)._target mipLevel offset image),
       self) ∧
    Texture.setMinificationFilter minImpl heap self filter mipmap =
      (heapUpdate heap self (minImpl (heap self) filter mipmap), self) ∧
    Texture.setMagnificationFilter magImpl heap self filter =
      (heapUpdate heap self (magImpl (heap self) filter), self) ∧
    Texture.setBorderColor borderImpl heap self color =
      (heapUpdate heap self (borderImpl (heap self) color), self) ∧
    Texture.setMaxAnisotropy anisoImpl heap self anisotropy =
      (heapUpdate heap self (anisoImpl (heap self) anisotropy), self) ∧
    Texture.generateMipmap mipImpl heap self =
      (heapUpdate heap self (mipImpl (heap self)), self) :=
  ⟨rfl, rfl, rfl, rfl, rfl, rfl, rfl, rfl⟩

/-- C10: the texture wrapper is provided for dimension counts 1, 2 and 3:
`Texture1D`, `Texture2D` and `Texture3D` are the instantiations
`Texture<1>`, `Texture<2>` and `Texture<3>`; the static member `Dimensions`
equals the template dimension parameter; and `target()` returns the target
value the object was constructed with, defaulting per dimension count to the
`DataHelper` target (GL_TEXTURE_1D / GL_TEXTURE_2D / GL_TEXTURE_3D). -/
theorem texture_instantiations_dimensions_target :
    (Texture1D = Texture 1 ∧ Texture2D = Texture 2 ∧ Texture3D = Texture 3) ∧
    (∀ d : Nat, Texture.Dimensions d = d) ∧
    (∀ (d : Nat) (ρ : Type) (r : ρ) (tgt : Nat),
      (Texture.mk' d r tgt).target = tgt) ∧
    (∀ (ρ : Type) (r : ρ),
      (Texture.mkDefault 1 r).target = 0x0DE0 ∧
      (Texture.mkDefault 2 r).target = 0x0DE1 ∧
      (Texture.mkDefault 3 r).target = 0x806F) :=
  ⟨⟨rfl, rfl, rfl⟩, fun _ => rfl, fun _ _ _ _ => rfl,
   fun _ _ => ⟨rfl, rfl, rfl⟩⟩

end Magnum
